import Mathlib

/-
Shallow embedding of the repository
`odense-rpa/journalisering-af-opmaerksomhedsskemaer-i-dubu`.

Strings of the Python source are modelled as `List Char`; machine-level
exceptions of the Python code are modelled with `Option`; the ambient
clock (`datetime.now()`) is an explicit `Date` parameter.
-/

namespace Dubu

/-! Python string helpers (`str.strip`, `str.lower`, `int(...)`, `in`). -/

/-- The ASCII whitespace characters recognised by Python's `str.strip()`
and by the regex class entered as backslash-s (the inputs of this program
are ASCII mail bodies, so the non-ASCII Unicode whitespace is omitted). -/
def isPyWs (c : Char) : Bool :=
  c == ' ' || c == '\t' || c == '\n' || c == '\r' || c == '\x0b' || c == '\x0c'

/-- Python `s.strip()`: remove leading and trailing whitespace. -/
def stripWs (s : List Char) : List Char :=
  ((s.dropWhile isPyWs).reverse.dropWhile isPyWs).reverse

/-- Python `s.lower()` restricted to ASCII letters (the addresses and
content types compared in the source are ASCII). -/
def toLowerL (s : List Char) : List Char :=
  s.map Char.toLower

/-- Whether `sub` occurs as a prefix of `s` (helper for `containsSub`). -/
def startsWithL : List Char → List Char → Bool
  | [], _ => true
  | _ :: _, [] => false
  | c :: cs, d :: ds => c == d && startsWithL cs ds

/-- Python `sub in s` for strings: case-sensitive substring containment. -/
def containsSub (sub : List Char) : List Char → Bool
  | [] => startsWithL sub []
  | c :: rest => startsWithL sub (c :: rest) || containsSub sub rest

/-- Whether every character of `s` is an ASCII decimal digit. -/
def allDigits (s : List Char) : Bool :=
  s.all Char.isDigit

/-- Numeric value of a digit string (only ever applied to digit strings,
where each `c.toNat - 48` is the digit's value). -/
def digitsVal (s : List Char) : Int :=
  s.foldl (fun a c => 10 * a + ((c.toNat : Int) - 48)) 0

/-- Python `int(s)` on a string: strip whitespace, allow one optional
sign, then require a nonempty run of decimal digits; `none` models the
`ValueError` raised otherwise. -/
def pyInt (s : List Char) : Option Int :=
  match stripWs s with
  | [] => none
  | '+' :: rest => if !rest.isEmpty && allDigits rest then some (digitsVal rest) else none
  | '-' :: rest => if !rest.isEmpty && allDigits rest then some (-(digitsVal rest)) else none
  | t => if allDigits t then some (digitsVal t) else none

/-- Python slice `s[a:b]` on a string as a list of characters. -/
def sliceL (l : List Char) (a b : Nat) : List Char :=
  (l.drop a).take (b - a)

/-! Dates: the fragment of Python `datetime` used by
`calculate_age_from_cpr` (construction with validation, and the day
count `(now - birth_date).days`, which for a midnight `birth_date`
equals the difference of the proleptic Gregorian ordinals). -/

/-- A calendar date (the time-of-day of `datetime.now()` cancels out in
`.days` and is omitted). -/
structure Date where
  year : Int
  month : Int
  day : Int
deriving DecidableEq

/-- Gregorian leap year rule. -/
def isLeap (y : Int) : Bool :=
  y % 4 == 0 && (y % 100 != 0 || y % 400 == 0)

/-- Length of month `m` in year `y`. -/
def monthLen (y m : Int) : Int :=
  if m = 2 then (if isLeap y then 29 else 28)
  else if m = 4 ∨ m = 6 ∨ m = 9 ∨ m = 11 then 30
  else 31

/-- Validity check performed by the `datetime(year, month, day)`
constructor (Python's `datetime.MINYEAR = 1`, `MAXYEAR = 9999`). -/
def isValidDate (y m d : Int) : Bool :=
  decide (1 ≤ y ∧ y ≤ 9999 ∧ 1 ≤ m ∧ m ≤ 12 ∧ 1 ≤ d ∧ d ≤ monthLen y m)

/-- `datetime(year, month, day)`: `none` models the `ValueError` on an
impossible date. -/
def mkDatetime (y m d : Int) : Option Date :=
  if isValidDate y m d then some ⟨y, m, d⟩ else none

/-- Days in year `y` strictly before month `m` (cumulative month table
plus the leap-day correction from March on). -/
def daysBeforeMonth (y m : Int) : Int :=
  (if m ≤ 1 then 0 else if m ≤ 2 then 31 else if m ≤ 3 then 59
   else if m ≤ 4 then 90 else if m ≤ 5 then 120 else if m ≤ 6 then 151
   else if m ≤ 7 then 181 else if m ≤ 8 then 212 else if m ≤ 9 then 243
   else if m ≤ 10 then 273 else if m ≤ 11 then 304 else 334)
  + (if 3 ≤ m then (if isLeap y then 1 else 0) else 0)

/-- Proleptic Gregorian ordinal of a date, as used by
`(now - birth_date).days = toOrdinal now - toOrdinal birth`. -/
def toOrdinal (dt : Date) : Int :=
  365 * (dt.year - 1) + (dt.year - 1).fdiv 4 - (dt.year - 1).fdiv 100
    + (dt.year - 1).fdiv 400 + daysBeforeMonth dt.year dt.month + dt.day

/-! `src/services/utils.py`: `calculate_age_from_cpr`. -/

/-- The three `int(...)` parses of `calculate_age_from_cpr`:
`day = int(cpr[0:2])`, `month = int(cpr[2:4])`, `year = int(cpr[4:6])`;
`none` models a `ValueError` escaping to the `except` clause. -/
def parseDMY (cpr : List Char) : Option (Int × Int × Int) :=
  match pyInt (sliceL cpr 0 2), pyInt (sliceL cpr 2 4), pyInt (sliceL cpr 4 6) with
  | some d, some m, some y => some (d, m, y)
  | _, _, _ => none

/-- The century resolution of `calculate_age_from_cpr`: for a string of
length at least 10, `century_digit = int(cpr[9])` and the two-digit year
becomes `year + 2000` when the digit is at most 3, else `year + 1900`;
for shorter strings the fallback compares against `now.year % 100`. -/
def resolveYear (cpr : List Char) (now : Date) (yy : Int) : Option Int :=
  if 10 ≤ cpr.length then
    match pyInt (sliceL cpr 9 10) with
    | none => none
    | some c => some (if c ≤ 3 then yy + 2000 else yy + 1900)
  else
    some (if now.year % 100 < yy then yy + 1900 else yy + 2000)

/-- The body of the `try:` block of `calculate_age_from_cpr`: parse the
day/month/year, resolve the century, build the birth date, and compute
`(now - birth_date).days // 365`; `none` models any caught exception. -/
def tryAge (cpr : List Char) (now : Date) : Option Int :=
  match parseDMY cpr with
  | none => none
  | some (d, m, y) =>
    match resolveYear cpr now y with
    | none => none
    | some yr =>
      match mkDatetime yr m d with
      | none => none
      | some bd => some ((toOrdinal now - toOrdinal bd).fdiv 365)

/-- `calculate_age_from_cpr` from `src/services/utils.py`: `-1` for an
empty or short string and for every exception caught by the
`except (ValueError, IndexError)` clause. -/
def calculate_age_from_cpr (cpr : List Char) (now : Date) : Int :=
  if cpr.isEmpty || decide (cpr.length < 6) then -1
  else
    match tryAge cpr now with
    | some a => a
    | none => -1

/-! `src/services/mail_service.py`: `parse_email_data`.  Each of the four
`re.search` calls is embedded as a scan over every start position
(`searchPos`), with the per-position matcher spelling out the regex:
the patterns' whitespace class and value classes are disjoint, so the
engine's backtracking collapses to the deterministic matchers below. -/

/-- Case-insensitive match of the literal `lbl` at the head of `s`
(the `re.IGNORECASE` flag on an ASCII literal); returns the rest of
`s` after the label. -/
def stripLabelCI : List Char → List Char → Option (List Char)
  | [], s => some s
  | _ :: _, [] => none
  | l :: ls, c :: cs => if l.toLower == c.toLower then stripLabelCI ls cs else none

/-- `re.search`: try the matcher at every start position, leftmost
success wins. -/
def searchPos {α : Type} (f : List Char → Option α) : List Char → Option α
  | [] => f []
  | c :: rest =>
    match f (c :: rest) with
    | some v => some v
    | none => searchPos f rest

/-- One position of the pattern for the label `Indsendt dato:` followed
by optional whitespace and a nonempty token of digits and hyphens
(group 1). -/
def matchDato (s : List Char) : Option (List Char) :=
  match stripLabelCI ("Indsendt dato:".data) s with
  | none => none
  | some r =>
    let r2 := r.dropWhile isPyWs
    let v := r2.takeWhile (fun c => c.isDigit || c == '-')
    if v.isEmpty then none else some v

/-- One position of the pattern for the label `CPR-nr`, an optional
period, a colon, optional whitespace and exactly ten digits (group 1). -/
def matchCpr (s : List Char) : Option (List Char) :=
  match stripLabelCI ("CPR-nr".data) s with
  | none => none
  | some r =>
    match
      (match r with
       | '.' :: ':' :: rest => some rest
       | ':' :: rest => some rest
       | _ => none) with
    | none => none
    | some r2 =>
      let r3 := r2.dropWhile isPyWs
      let v := r3.take 10
      if v.length == 10 && allDigits v then some v else none

/-- One position of a free-text pattern: label, optional whitespace,
then a lazy nonempty group of non-newline characters up to the next
newline or the end of the string; the result is the group after the
`.strip()` the source applies to it.  When only whitespace remains the
engine backtracks into the whitespace run: it still matches whenever
that run holds a non-newline character, and the stripped group is
empty. -/
def matchFree (lbl : List Char) (s : List Char) : Option (List Char) :=
  match stripLabelCI lbl s with
  | none => none
  | some r =>
    let r2 := r.dropWhile isPyWs
    if !r2.isEmpty then some (stripWs (r2.takeWhile (fun c => c != '\n')))
    else if r.any (fun c => c != '\n') then some [] else none

/-- The `Indsendt dato` search of `parse_email_data`. -/
def findDato (t : List Char) : Option (List Char) :=
  searchPos matchDato t

/-- The `CPR-nr` search of `parse_email_data`. -/
def findCpr (t : List Char) : Option (List Char) :=
  searchPos matchCpr t

/-- The `Hvor er barnet i hverdagen` search of `parse_email_data`. -/
def findLokation (t : List Char) : Option (List Char) :=
  searchPos (matchFree ("Hvor er barnet i hverdagen:".data)) t

/-- The `Navn` search of `parse_email_data`. -/
def findNavn (t : List Char) : Option (List Char) :=
  searchPos (matchFree ("Navn:".data)) t

/-- `parse_email_data` from `src/services/mail_service.py`: the Python
dict is modelled as an association list in insertion order; a key is
inserted exactly when its pattern matched. -/
def parse_email_data (t : List Char) : List (String × List Char) :=
  (match findDato t with
   | some v => [("indsendt_dato", v)]
   | none => [])
  ++ (match findCpr t with
      | some v => [("cpr_nr", v)]
      | none => [])
  ++ (match findLokation t with
      | some v => [("lokation", v)]
      | none => [])
  ++ (match findNavn t with
      | some v => [("navn", v)]
      | none => [])

/-! `src/main.py`: the intake phase `populate_queue`. -/

/-- An inbox message as the dictionary produced by
`MailService._extract_message_info`, together with the data the later
service calls of `populate_queue` return for it: `body` is the result
of `get_message_body` (`none` models the empty dict on error) and
`attachments` the `(filename, temp_path)` pairs of `list_attachments`. -/
structure Message where
  id : List Char
  from_address : List Char
  subject : List Char
  has_attachments : Bool
  body : Option (List Char × List Char)
  attachments : List (List Char × List Char)
deriving DecidableEq

/-- The hardcoded sender allow-list of `populate_queue`. -/
def allowed_senders : List (List Char) :=
  ["gtp@odense.dk".data, "xflow@odense.dk".data, "jakkw@odense.dk".data]

/-- The two `continue` filters of `populate_queue`: lowercased sender
must be in the allow-list and the subject must contain `RPA`. -/
def passesFilter (m : Message) : Bool :=
  decide (toLowerL m.from_address ∈ allowed_senders)
    && containsSub ("RPA".data) m.subject

/-- Python dict assignment `d[k] = v`: overwrite in place, or append a
new key at the end. -/
def setKey (d : List (String × List Char)) (k : String) (v : List Char) :
    List (String × List Char) :=
  if (d.map Prod.fst).contains k then
    d.map (fun p => if p.1 = k then (k, v) else p)
  else d ++ [(k, v)]

/-- The attachment loop of `populate_queue`: every attachment named
`RPA_aflevering_til_postkasse.pdf` stores its temp path under
`pdf_path` (a later match overwrites an earlier one). -/
def addPdf (d : List (String × List Char)) (atts : List (List Char × List Char)) :
    List (String × List Char) :=
  atts.foldl
    (fun acc p =>
      if p.1 = ("RPA_aflevering_til_postkasse.pdf".data) then setKey acc "pdf_path" p.2
      else acc)
    d

/-- The `extracted_data` computed for a message whose body was
retrieved: HTML bodies go through the HTML-to-text conversion `g`
(`extract_text_from_html`, an external-parser wrapper kept abstract),
then `parse_email_data`, then the attachment loop. -/
def extractRecord (g : List Char → List Char) (m : Message)
    (ct content : List Char) : List (String × List Char) :=
  let plain := if toLowerL ct = ("html".data) then g content else content
  let d0 := parse_email_data plain
  if m.has_attachments then addPdf d0 m.attachments else d0

/-- A work-queue entry: the JSON data of `add_item`, its `reference`,
and its lifecycle status (created at status `new`). -/
structure QueueItem where
  data : List (String × List Char)
  reference : List Char
  status : String
deriving DecidableEq

/-- `workqueue.add_item(data=extracted_data,
reference=extracted_data.get('cpr_nr', 'unknown'))`. -/
def mkItem (d : List (String × List Char)) : QueueItem :=
  ⟨d, (d.lookup "cpr_nr").getD ("unknown".data), "new"⟩

/-- The message loop of `populate_queue`.  `ex` is the current binding
of the Python variable `extracted_data`, which survives across loop
iterations: a filtered-out message changes nothing; a passing message
with a retrieved body rebinds it; a passing message whose body call
returned nothing reuses the stale binding, and if there is none the
`add_item` line raises `NameError`, which the enclosing
`except Exception` swallows, ending the poll with the queue as built so
far. -/
def populate_loop (g : List Char → List Char) :
    List Message → Option (List (String × List Char)) → List QueueItem → List QueueItem
  | [], _, q => q
  | m :: rest, ex, q =>
    if passesFilter m then
      match
        (match m.body with
         | some (ct, content) => some (extractRecord g m ct content)
         | none => ex) with
      | some d => populate_loop g rest (some d) (q ++ [mkItem d])
      | none => q
    else populate_loop g rest ex q

/-- `populate_queue` from `src/main.py`, as a function from the queue
contents and the fetched inbox messages to the new queue contents:
every enqueued entry is simply appended — the queue passed in is never
consulted. -/
def populate_queue (g : List Char → List Char) (q : List QueueItem)
    (msgs : List Message) : List QueueItem :=
  populate_loop g msgs none q

/-! `src/main.py`: the fulfillment phase `process_workqueue` and the
`main` dispatch.  The work-item context manager and `clear_workqueue`
belong to the external `automation_server_client` package (not under
src/); their effect on an item is modelled from the spec. -/

/-- The external calls a fulfillment iteration performs, in order. -/
inductive Effect where
  | opretAktivitet (sags_id : Nat) (typ undertype beskrivelse status notat : List Char)
  | uploadDokument (sags_id : Nat) (dokument_titel filnavn : List Char)
  | removeFile (path : List Char)
deriving DecidableEq

/-- Modelled from the spec: the terminal state the work-item context
manager leaves an item in.  A `WorkItemError` caught by the item's
handler marks the entry failed with that message; a clean exit marks it
done; any other exception propagates and aborts the whole run without
marking the item done or failed. -/
inductive ItemOutcome where
  | done
  | failed (reason : List Char)
  | fatal (err : List Char)
deriving DecidableEq

/-- The environment of one fulfillment run: which local temp files
exist (`open` succeeds exactly on them), and whether the document
upload call reports success. -/
structure Env where
  files : List (List Char)
  uploadOk : Bool
deriving DecidableEq

/-- The body of one iteration of `process_workqueue` over `data`: create
the activity on the hardcoded case 606094, read `data['pdf_path']` (a
missing key raises `KeyError`, a missing file `FileNotFoundError`, both
uncaught), upload the document to case 606094, delete the temp file;
the upload call's return value is bound to `uploaded_dokument` and
never inspected, and the trailing `try` block only wraps `pass`, so no
`WorkItemError` is ever raised. -/
def process_item (env : Env) (d : List (String × List Char)) :
    List Effect × ItemOutcome :=
  let notat := ("Automatisk oprettet aktivitet for CPRnr: ".data)
      ++ ((d.lookup "cpr_nr").getD ("N/A".data))
      ++ (" og lokation: ".data)
      ++ ((d.lookup "lokation").getD ("N/A".data))
  let e1 := Effect.opretAktivitet 606094 ("Statusudtalelse".data) ("Skole".data)
      ("Modtaget opmærksomhedsskema".data) ("Aktiv".data) notat
  match d.lookup "pdf_path" with
  | none => ([e1], ItemOutcome.fatal ("KeyError: pdf_path".data))
  | some p =>
    if env.files.contains p then
      let _uploaded_dokument := env.uploadOk
      let e2 := Effect.uploadDokument 606094 ("RPA Aflevering til postkasse".data)
          ("RPA_aflevering_til_postkasse.pdf".data)
      let e3 := Effect.removeFile p
      ([e1, e2, e3], ItemOutcome.done)
    else ([e1], ItemOutcome.fatal ("FileNotFoundError".data))

/-- Whether an outcome is the `failed` terminal state. -/
def isFailedOutcome : ItemOutcome → Bool
  | ItemOutcome.failed _ => true
  | _ => false

/-- `process_workqueue` from `src/main.py`: items are processed
strictly in order; the outcomes of completed items are collected, and a
fatal (uncaught) exception aborts the run at that item, leaving it and
every later item unprocessed. -/
def process_workqueue (env : Env) :
    List QueueItem → List ItemOutcome × Option (List Char)
  | [] => ([], none)
  | it :: rest =>
    match process_item env it.data with
    | (_, ItemOutcome.fatal e) => ([], some e)
    | (_, out) =>
      let r := process_workqueue env rest
      (out :: r.1, r.2)

/-- Modelled from the spec: `Workqueue.clear_workqueue` lives in the
external automation-server client; clearing with argument `new` removes
every queue entry whose status is `new` and keeps the rest. -/
def clear_workqueue (s : String) (q : List QueueItem) : List QueueItem :=
  q.filter (fun it => it.status != s)

/-- Result of one program invocation: the intake branch exits after
populating, the fulfillment branch returns the processing outcome. -/
inductive RunResult where
  | queued (q : List QueueItem)
  | processed (outs : List ItemOutcome) (aborted : Option (List Char))
deriving DecidableEq

/-- `main` from `src/main.py`: with `--queue` among the arguments the
queue is cleared of `new` entries, then the mailbox is polled and the
process exits; otherwise the work queue is processed. -/
def mainRun (argv : List String) (g : List Char → List Char)
    (q : List QueueItem) (msgs : List Message) (env : Env) : RunResult :=
  if argv.contains "--queue" then
    RunResult.queued (populate_queue g (clear_workqueue "new" q) msgs)
  else
    let r := process_workqueue env q
    RunResult.processed r.1 r.2

/-! Concrete fixtures used by the theorems below. -/

/-- A qualifying inbox message: allow-listed sender, `RPA` in the
subject, a plain-text body carrying a `CPR-nr` field, no attachments. -/
def msgA : Message :=
  ⟨"m1".data, "gtp@odense.dk".data, "RPA test".data, false,
    some ("text".data, "CPR-nr: 0101201234".data), []⟩

/-- The queue entry `populate_queue` builds from `msgA`. -/
def itemA : QueueItem :=
  ⟨[("cpr_nr", "0101201234".data)], "0101201234".data, "new"⟩

/-- A message from a sender outside the allow-list (subject marker
present). -/
def msgBad : Message :=
  ⟨"m0".data, "evil@example.com".data, "RPA x".data, false,
    some ("text".data, "CPR-nr: 0101201234".data), []⟩

/-- A qualifying message whose extracted identifier belongs to a
citizen born in 1980 (tenth digit 4, so the 1900s). -/
def msgOld : Message :=
  ⟨"m2".data, "gtp@odense.dk".data, "RPA test".data, false,
    some ("text".data, "CPR-nr: 0101801234".data), []⟩

/-- Work-item data with a staged pdf and one identifier. -/
def dataA : List (String × List Char) :=
  [("cpr_nr", "0101201234".data), ("pdf_path", "/tmp/a.pdf".data)]

/-- Work-item data with a staged pdf and a different identifier. -/
def dataB : List (String × List Char) :=
  [("cpr_nr", "1212995678".data), ("pdf_path", "/tmp/b.pdf".data)]

/-- An environment where both staged files exist and the upload call
reports success. -/
def envOk : Env :=
  ⟨["/tmp/a.pdf".data, "/tmp/b.pdf".data], true⟩

/-- An environment where the staged file exists but the upload call
reports failure. -/
def envUploadFails : Env :=
  ⟨["/tmp/a.pdf".data, "/tmp/b.pdf".data], false⟩

/-- The case id carried by an `opretAktivitet` effect, if any. -/
def aktivitetSagsId : Option Effect → Option Nat
  | some (Effect.opretAktivitet s _ _ _ _ _) => some s
  | _ => none

/-! Claims. -/

/-- C1: the claim is that intake polling dedups by source message id.
The code has no such check: `populate_queue` appends an entry for every
message passing the sender/subject filters without ever consulting the
queue (and its reference is the extracted `cpr_nr`, not the message
id), so polling the same single-message mailbox twice stores the same
entry twice. -/
theorem populate_queue_not_idempotent :
    populate_queue id [] [msgA] = [itemA]
      ∧ populate_queue id (populate_queue id [] [msgA]) [msgA] = [itemA, itemA] := by
  exact ⟨rfl, rfl⟩

/-- C2: the claim is that an item whose upload call reports failure is
marked failed with a nonempty reason.  In the code the upload result is
bound but never inspected and the dead `except WorkItemError` wraps only
`pass`: with the upload reporting failure the item still completes as
done, the result of `process_item` does not depend on the reported
upload outcome at all, and no input can produce a `failed` outcome. -/
theorem upload_failure_never_marks_failed :
    (process_item envUploadFails dataA).2 = ItemOutcome.done
      ∧ (∀ fs : List (List Char), ∀ b1 b2 : Bool, ∀ d,
          process_item ⟨fs, b1⟩ d = process_item ⟨fs, b2⟩ d)
      ∧ (∀ env d, isFailedOutcome (process_item env d).2 = false) := by
  refine ⟨by decide, fun fs b1 b2 d => rfl, fun env d => ?_⟩
  unfold process_item
  cases d.lookup "pdf_path" with
  | none => rfl
  | some p =>
    by_cases hm : p ∈ env.files
    · simp [hm, isFailedOutcome]
    · simp [hm, isFailedOutcome]

/-- C3: the claim is that the fulfillment loop resolves the target case
by querying the case system with the extracted identifier.  The code
performs no lookup and passes the hardcoded case id 606094 to the
activity creation for every record: two records with different
identifiers both produce an activity on case 606094. -/
theorem aktivitet_sags_id_hardcoded :
    aktivitetSagsId ((process_item envOk dataA).1.head?) = some 606094
      ∧ aktivitetSagsId ((process_item envOk dataB).1.head?) = some 606094
      ∧ (dataA.lookup "cpr_nr" == dataB.lookup "cpr_nr") = false := by
  decide

/-- C4: the claim is that intake skips citizens at or above the age
threshold.  The intake filter never computes an age
(`calculate_age_from_cpr` is not called anywhere on the intake path):
a qualifying message whose identifier yields age 45 — far above 15 —
is enqueued all the same. -/
theorem intake_has_no_age_filter :
    populate_queue id [] [msgOld]
        = [⟨[("cpr_nr", "0101801234".data)], "0101801234".data, "new"⟩]
      ∧ 15 ≤ calculate_age_from_cpr ("0101801234".data) ⟨2025, 10, 12⟩ := by
  exact ⟨rfl, by decide⟩

/-- C10: a message passing the sender and subject filters but carrying
no attachment named `RPA_aflevering_til_postkasse.pdf` is enqueued with
no `pdf_path` key in its data, and processing that record reads
`data['pdf_path']` unconditionally: the run aborts with an uncaught
`KeyError`, the item ending neither done nor failed. -/
theorem missing_pdf_path_aborts_run :
    (populate_queue id [] [msgA]).map (fun it => it.data.lookup "pdf_path") = [none]
      ∧ process_workqueue ⟨[], true⟩ (populate_queue id [] [msgA])
          = ([], some ("KeyError: pdf_path".data)) := by
  decide

/-- A decimal digit is not Python whitespace. -/
theorem not_ws_of_digit (c : Char) (h : c.isDigit = true) : isPyWs c = false := by
  rw [Bool.eq_false_iff]
  intro ht
  unfold isPyWs at ht
  simp only [Bool.or_eq_true, beq_iff_eq] at ht
  rcases ht with ((((h1 | h1) | h1) | h1) | h1) | h1 <;>
    (subst h1; exact absurd h (by decide))

/-- `stripWs` leaves a single non-whitespace character unchanged. -/
theorem stripWs_single (c : Char) (h : isPyWs c = false) : stripWs [c] = [c] := by
  simp [stripWs, List.dropWhile, h]

/-- Python `int` on a one-character digit string yields the digit's
value. -/
theorem pyInt_single_digit (c : Char) (h : c.isDigit = true) :
    pyInt [c] = some ((c.toNat : Int) - 48) := by
  have hplus : c ≠ '+' := by
    intro hc
    subst hc
    exact absurd h (by decide)
  have hminus : c ≠ '-' := by
    intro hc
    subst hc
    exact absurd h (by decide)
  have hv : digitsVal [c] = (c.toNat : Int) - 48 := by
    simp [digitsVal]
  unfold pyInt
  rw [stripWs_single c (not_ws_of_digit c h)]
  split
  · rename_i heq
    exact absurd heq (by simp)
  · rename_i rest heq
    exact absurd (List.cons.inj heq).1 hplus
  · rename_i rest heq
    exact absurd (List.cons.inj heq).1 hminus
  · simp [allDigits, h, hv]

/-- C5: for every identifier of length 10 whose tenth character is a
digit, the age derivation of `calculate_age_from_cpr` resolves the
two-digit year through the digit at index 9 — at most 3 gives
`year + 2000`, otherwise `year + 1900` — and proceeds with the birth
date built from that resolved year. -/
theorem century_digit_resolution (d0 d1 d2 d3 d4 d5 d6 d7 d8 d9 : Char) (now : Date)
    (h9 : d9.isDigit = true) :
    tryAge [d0, d1, d2, d3, d4, d5, d6, d7, d8, d9] now =
      match parseDMY [d0, d1, d2, d3, d4, d5, d6, d7, d8, d9] with
      | none => none
      | some t =>
        match mkDatetime
            (if ((d9.toNat : Int) - 48) ≤ 3 then t.2.2 + 2000 else t.2.2 + 1900)
            t.2.1 t.1 with
        | none => none
        | some bd => some ((toOrdinal now - toOrdinal bd).fdiv 365) := by
  have hp : pyInt [d9] = some ((d9.toNat : Int) - 48) := pyInt_single_digit d9 h9
  have hs : sliceL [d0, d1, d2, d3, d4, d5, d6, d7, d8, d9] 9 10 = [d9] := rfl
  cases hdm : parseDMY [d0, d1, d2, d3, d4, d5, d6, d7, d8, d9] with
  | none => simp [tryAge, hdm]
  | some t =>
    obtain ⟨dd, mm, yy⟩ := t
    simp [tryAge, hdm, resolveYear, hs, hp]

/-- Witness: a concrete 10-digit identifier with tenth digit 3 resolves
to birth year 2005 and age 20 on 2025-10-12. -/
theorem century_digit_resolution_witness :
    tryAge ['0', '1', '0', '1', '0', '5', '0', '1', '2', '3'] ⟨2025, 10, 12⟩ = some 20 := by
  rw [century_digit_resolution '0' '1' '0' '1' '0' '5' '0' '1' '2' '3' ⟨2025, 10, 12⟩
    (by decide)]
  decide

/-- Month 13 never forms a valid datetime. -/
theorem mkDatetime_month13 (y d : Int) : mkDatetime y 13 d = none := by
  have hv : isValidDate y 13 d = false := by
    simp only [isValidDate, decide_eq_false_iff_not]
    rintro ⟨-, -, -, h12, -, -⟩
    omega
  simp [mkDatetime, hv]

/-- A failing parse pipeline yields the sentinel age. -/
theorem calc_age_of_tryAge_none (cpr : List Char) (now : Date)
    (h : tryAge cpr now = none) : calculate_age_from_cpr cpr now = -1 := by
  unfold calculate_age_from_cpr
  split
  · rfl
  · rw [h]

/-- C6: age derivation is a total function returning `-1` on malformed
input: a missing or short identifier gives `-1`, any exception caught in
the parse pipeline (non-numeric slices, impossible dates) gives `-1`, in
particular every identifier whose month slice reads 13, and an
identifier shorter than 10 characters resolves its two-digit year by the
fallback comparison against the current two-digit year — greater means
the 1900s, otherwise the 2000s. -/
theorem age_derivation_sentinel (cpr : List Char) (now : Date) :
    (cpr.length < 6 → calculate_age_from_cpr cpr now = -1)
      ∧ (tryAge cpr now = none → calculate_age_from_cpr cpr now = -1)
      ∧ (∀ d y : Int, parseDMY cpr = some (d, 13, y) →
          calculate_age_from_cpr cpr now = -1)
      ∧ (cpr.length < 10 → ∀ yy : Int, resolveYear cpr now yy =
          some (if now.year % 100 < yy then yy + 1900 else yy + 2000)) := by
  refine ⟨?_, calc_age_of_tryAge_none cpr now, ?_, ?_⟩
  · intro h
    have hd : decide (cpr.length < 6) = true := decide_eq_true h
    simp [calculate_age_from_cpr, hd]
  · intro d y hdm
    apply calc_age_of_tryAge_none
    cases hr : resolveYear cpr now y with
    | none => simp [tryAge, hdm, hr]
    | some yr => simp [tryAge, hdm, hr, mkDatetime_month13]
  · intro h yy
    unfold resolveYear
    rw [if_neg (by omega)]

/-- Witness: a five-character identifier and a month-13 identifier both
give `-1`, and a nine-character identifier with two-digit year 90
resolves to 1990 on a 2025 clock. -/
theorem age_derivation_sentinel_witness :
    calculate_age_from_cpr ("12345".data) ⟨2025, 10, 12⟩ = -1
      ∧ calculate_age_from_cpr ("0113991234".data) ⟨2025, 10, 12⟩ = -1
      ∧ resolveYear ("010190123".data) ⟨2025, 10, 12⟩ 90 = some 1990 := by
  refine ⟨(age_derivation_sentinel _ _).1 (by decide),
    (age_derivation_sentinel _ _).2.2.1 1 99 (by decide), ?_⟩
  have h3 := (age_derivation_sentinel ("010190123".data) ⟨2025, 10, 12⟩).2.2.2
    (by decide) 90
  rw [h3]
  decide

/-- C7: field extraction is a pure function of the body text whose
result can only carry the four fixed keys: when all four labelled
fields match, the result holds exactly those four keys in order; when
no label matches, the result is empty; and in general a key appears in
the result exactly when its case-insensitive pattern matched. -/
theorem parse_email_data_fields (t : List Char) :
    ((findDato t).isSome = true → (findCpr t).isSome = true →
      (findLokation t).isSome = true → (findNavn t).isSome = true →
      (parse_email_data t).map Prod.fst
        = ["indsendt_dato", "cpr_nr", "lokation", "navn"])
      ∧ (findDato t = none → findCpr t = none → findLokation t = none →
          findNavn t = none → parse_email_data t = [])
      ∧ (∀ k : String, k ∈ (parse_email_data t).map Prod.fst ↔
          ((k = "indsendt_dato" ∧ (findDato t).isSome = true)
            ∨ (k = "cpr_nr" ∧ (findCpr t).isSome = true)
            ∨ (k = "lokation" ∧ (findLokation t).isSome = true)
            ∨ (k = "navn" ∧ (findNavn t).isSome = true))) := by
  rcases hd : findDato t with - | vd <;> rcases hc : findCpr t with - | vc <;>
    rcases hl : findLokation t with - | vl <;> rcases hn : findNavn t with - | vn <;>
    refine ⟨?_, ?_, ?_⟩ <;>
    simp [parse_email_data, hd, hc, hl, hn]

/-- Witness: a body text carrying all four labelled fields extracts
exactly the four keys, in insertion order. -/
theorem parse_email_data_fields_witness :
    (parse_email_data (String.data
        "Indsendt dato: 2024-01-02\nCPR-nr: 0101201234\nHvor er barnet i hverdagen: Skole\nNavn: Test Testesen")).map
        Prod.fst
      = ["indsendt_dato", "cpr_nr", "lokation", "navn"] :=
  (parse_email_data_fields _).1 rfl rfl rfl rfl

/-- C8: message triage retains exactly the messages whose lowercased
sender address equals one of the three allow-listed addresses and whose
subject contains the substring `RPA` (case-sensitively): a message
failing the filter is skipped with no effect on the queue or on the
loop state, and a passing message (with a retrieved body) is retained
and enqueued. -/
theorem triage_filter (m : Message) :
    (passesFilter m = true ↔
      ((toLowerL m.from_address = ("gtp@odense.dk".data)
          ∨ toLowerL m.from_address = ("xflow@odense.dk".data)
          ∨ toLowerL m.from_address = ("jakkw@odense.dk".data))
        ∧ containsSub ("RPA".data) m.subject = true))
      ∧ (∀ g ex q rest, passesFilter m = false →
          populate_loop g (m :: rest) ex q = populate_loop g rest ex q)
      ∧ (∀ g ex q rest ct content, passesFilter m = true →
          m.body = some (ct, content) →
          populate_loop g (m :: rest) ex q
            = populate_loop g rest (some (extractRecord g m ct content))
                (q ++ [mkItem (extractRecord g m ct content)])) := by
  refine ⟨?_, ?_, ?_⟩
  · simp [passesFilter, allowed_senders]
  · intro g ex q rest h
    simp [populate_loop, h]
  · intro g ex q rest ct content h hb
    simp [populate_loop, h, hb]

/-- Witness: the off-list sender is skipped without enqueueing, and the
allow-listed sender with `RPA` in the subject is enqueued. -/
theorem triage_filter_witness :
    passesFilter msgBad = false
      ∧ populate_loop id [msgBad] none [] = []
      ∧ populate_loop id [msgA] none [] = [itemA] := by
  refine ⟨by decide, ?_, ?_⟩
  · rw [(triage_filter msgBad).2.1 id none [] [] (by decide)]
    rfl
  · rw [(triage_filter msgA).2.2 id none [] [] ("text".data)
      ("CPR-nr: 0101201234".data) (by decide) rfl]
    rfl

/-- The staged queue of a previous intake run: one unprocessed entry at
status `new`, one already-done entry. -/
def qStale : List QueueItem :=
  [⟨[], "a".data, "new"⟩, ⟨[], "b".data, "done"⟩]

/-- C9: with the `--queue` flag the program first removes every queue
entry in `new` status and only then polls the mailbox and enqueues, so
no `new` entry staged earlier survives into the freshly populated
queue's base. -/
theorem queue_flag_clears_new (argv : List String) (g : List Char → List Char)
    (q : List QueueItem) (msgs : List Message) (env : Env)
    (h : argv.contains "--queue" = true) :
    mainRun argv g q msgs env
        = RunResult.queued (populate_queue g (clear_workqueue "new" q) msgs)
      ∧ ∀ it ∈ clear_workqueue "new" q, it.status ≠ "new" := by
  constructor
  · simp [mainRun, h]
    exact List.mem_of_elem_eq_true h
  · intro it hit
    unfold clear_workqueue at hit
    have hp := List.of_mem_filter hit
    simpa using hp

/-- Witness: invoking with `--queue` on a queue holding one `new` and
one `done` entry discards the `new` entry before polling an empty
mailbox. -/
theorem queue_flag_clears_new_witness :
    mainRun ["--queue"] id qStale [] ⟨[], true⟩
      = RunResult.queued [⟨[], "b".data, "done"⟩] := by
  rw [(queue_flag_clears_new ["--queue"] id qStale [] ⟨[], true⟩ (by decide)).1]
  decide

end Dubu
